import Mathlib

/-!
# Surface descriptor factory of `dawn-additions/sdl/utils.cpp`

A shallow embedding of the two functions of `src/dawn-additions/sdl/utils.cpp`,
`GetSurfaceDescriptor` and `CreateSurfaceForWindow`, over an explicit world
(the objects created with `new`, plus a history of the effects performed), with
the build configuration (the three platform macros) as a parameter.
-/

namespace wgpu.sdl

/-! ## Data model -/

/-- Machine addresses and pointer-sized handles (`HWND`, `HINSTANCE`, `CALayer*`,
`Display*`, `void*`). The value 0 is the null pointer. -/
abbrev Ptr := Nat

/-- The null pointer `nullptr`. -/
def nullptr : Ptr := 0

/-- The build configuration: the truth value of each preprocessor condition tested
by the `#if` chains of utils.cpp. Any combination can be active at once. -/
structure Config where
  /-- The condition `DAWN_PLATFORM_IS(WINDOWS)`. -/
  DAWN_PLATFORM_IS_WINDOWS : Bool
  /-- The condition `defined(DAWN_ENABLE_BACKEND_METAL)`. -/
  DAWN_ENABLE_BACKEND_METAL : Bool
  /-- The condition `defined(DAWN_USE_X11)`. -/
  DAWN_USE_X11 : Bool
deriving DecidableEq, Repr

/-- The three surface-source shapes the file knows: which fields a native handle
or a descriptor payload is made of. -/
inductive SurfaceSource where
  | WindowsHWND
  | MetalLayer
  | XlibWindow
deriving DecidableEq, Repr

/-- Modelled from the spec: the enumeration `WGPUSType` of webgpu.h (not under src/).
Only the three enumerators the source names are distinguished; `zero` is the value a
value-initialised field holds before it is assigned. -/
inductive WGPUSType where
  | zero
  | SurfaceSourceMetalLayer
  | SurfaceSourceWindowsHWND
  | SurfaceSourceXlibWindow
deriving DecidableEq, Repr

/-- The surface-source kind an `sType` discriminant names, if any. -/
def WGPUSType.names : WGPUSType → Option SurfaceSource
  | .zero => none
  | .SurfaceSourceMetalLayer => some .MetalLayer
  | .SurfaceSourceWindowsHWND => some .WindowsHWND
  | .SurfaceSourceXlibWindow => some .XlibWindow

/-- Modelled from the spec: `WGPUChainedStruct` of webgpu.h (not under src/): the
chain-continuation pointer and the type discriminant. -/
structure WGPUChainedStruct where
  next : Ptr := nullptr
  sType : WGPUSType := WGPUSType.zero
deriving DecidableEq, Repr

/-- Modelled from the spec: `WGPUSurfaceSourceWindowsHWND` of webgpu.h (not under
src/); the defaults are the result of value-initialisation. -/
structure WGPUSurfaceSourceWindowsHWND where
  chain : WGPUChainedStruct := {}
  hinstance : Ptr := nullptr
  hwnd : Ptr := nullptr
deriving DecidableEq, Repr

/-- Modelled from the spec: `WGPUSurfaceSourceMetalLayer` of webgpu.h (not under
src/); the defaults are the result of value-initialisation. -/
structure WGPUSurfaceSourceMetalLayer where
  chain : WGPUChainedStruct := {}
  layer : Ptr := nullptr
deriving DecidableEq, Repr

/-- Modelled from the spec: `WGPUSurfaceSourceXlibWindow` of webgpu.h (not under
src/); the defaults are the result of value-initialisation. The X11 window id is an
unsigned integer, copied without arithmetic. -/
structure WGPUSurfaceSourceXlibWindow where
  chain : WGPUChainedStruct := {}
  display : Ptr := nullptr
  window : Nat := 0
deriving DecidableEq, Repr

/-- Modelled from the spec: `WGPUStringView` of webgpu.h (not under src/). -/
structure WGPUStringView where
  data : Ptr := nullptr
  length : Nat := 0
deriving DecidableEq, Repr

/-- Modelled from the spec: `WGPUSurfaceDescriptor` of webgpu.h (not under src/), the
generic surface-creation request; the defaults are what `= {}` leaves in it. -/
structure WGPUSurfaceDescriptor where
  nextInChain : Ptr := nullptr
  label : WGPUStringView := {}
deriving DecidableEq, Repr

/-- The handle type `WGPUInstance`, not inspected by this file. -/
abbrev WGPUInstance := Nat

/-- The handle type `WGPUSurface`, not inspected by this file; 0 is the null handle. -/
abbrev WGPUSurface := Nat

/-- The `struct NativeData` of lines 39-42 (Windows branch). -/
structure NativeDataWindows where
  hwnd : Ptr
  hinstance : Ptr
deriving DecidableEq, Repr

/-- The `struct NativeData` of lines 45-47 (Metal branch). -/
structure NativeDataMetal where
  layer : Ptr
deriving DecidableEq, Repr

/-- The `struct NativeData` of lines 50-53 (X11 branch). -/
structure NativeDataX11 where
  display : Ptr
  window : Nat
deriving DecidableEq, Repr

/-- The `#if / #elif / #elif / #endif` chain of lines 37-54: which definition of
`struct NativeData` the configuration compiles in, if any. -/
def NativeDataShape (cfg : Config) : Option SurfaceSource :=
  match cfg.DAWN_PLATFORM_IS_WINDOWS, cfg.DAWN_ENABLE_BACKEND_METAL, cfg.DAWN_USE_X11 with
  | true, _, _ => some .WindowsHWND
  | false, true, _ => some .MetalLayer
  | false, false, true => some .XlibWindow
  | false, false, false => none

/-- The type `NativeData` of a build. Where no branch of lines 37-54 is taken the file
defines no such struct, so a pointer to it designates nothing that can be read. -/
def NativeData : Config → Type
  | ⟨true, _, _⟩ => NativeDataWindows
  | ⟨false, true, _⟩ => NativeDataMetal
  | ⟨false, false, true⟩ => NativeDataX11
  | ⟨false, false, false⟩ => Unit

/-- The memory of the caller as far as this file reads it: the `NativeData` object
stored at an address, if there is one. -/
abbrev NativeMemory (cfg : Config) := Ptr → Option (NativeData cfg)

/-- The read `native->field` through a `NativeData*`: defined only when the pointer
is not null and addresses an object. -/
def NativeMemory.deref {cfg : Config} (mem : NativeMemory cfg) (native : Ptr) :
    Option (NativeData cfg) :=
  if native = nullptr then none else mem native

/-- An object created with `new`, tagged with the concrete struct type it was
allocated as. -/
inductive HeapObject where
  | WindowsHWND (d : WGPUSurfaceSourceWindowsHWND)
  | MetalLayer (d : WGPUSurfaceSourceMetalLayer)
  | XlibWindow (d : WGPUSurfaceSourceXlibWindow)
deriving DecidableEq, Repr

/-- The concrete struct type an object was allocated as, i.e. which payload fields it
has. -/
def HeapObject.allocatedAs : HeapObject → SurfaceSource
  | .WindowsHWND _ => .WindowsHWND
  | .MetalLayer _ => .MetalLayer
  | .XlibWindow _ => .XlibWindow

/-- The leading `chain` member, which is what a `WGPUChainedStruct*` to the object
reads. -/
def HeapObject.chain : HeapObject → WGPUChainedStruct
  | .WindowsHWND d => d.chain
  | .MetalLayer d => d.chain
  | .XlibWindow d => d.chain

/-- The objects currently allocated, by address. -/
abbrev Heap := List (Ptr × HeapObject)

/-- The effects a run performs, in order. -/
inductive Event where
  /-- The expression `new T()` returned this address. -/
  | alloc (p : Ptr)
  /-- The call `procs->instanceCreateSurface(inst, &descriptor)` was made. -/
  | call (inst : WGPUInstance) (descriptor : WGPUSurfaceDescriptor)
  /-- The destructor of the owning pointer invoked its release function on `p`. -/
  | release (p : Ptr)
  /-- The expression `delete` destroyed the object at this address. -/
  | free (p : Ptr)
deriving DecidableEq, Repr

/-- The state a run acts on: the allocated objects and the history of effects. -/
structure World where
  heap : Heap
  trace : List Event
deriving DecidableEq, Repr

/-- The address `new` hands out: one that is not null and not in use. Allocation
failure is not modelled (the spec treats it as fatal). -/
def Heap.fresh (h : Heap) : Ptr :=
  (h.map Prod.fst).foldr max 0 + 1

/-- The expression `new T()` followed by the initialisation of the object: the
object is placed at a fresh address and the allocation is recorded. -/
def World.new (w : World) (obj : HeapObject) : Ptr × World :=
  let p := w.heap.fresh
  (p, { heap := (p, obj) :: w.heap, trace := w.trace ++ [Event.alloc p] })

/-- The expression `delete reinterpret_cast<T*>(p)`: nothing for a null pointer;
otherwise the object at `p` must be live and must have been allocated as a `T`, and it
is removed. Anything else is undefined (`none`). -/
def World.delete (w : World) (T : SurfaceSource) (p : Ptr) : Option World :=
  if p = nullptr then some w
  else
    match w.heap.lookup p with
    | some obj =>
      if obj.allocatedAs = T then
        some { heap := w.heap.filter (fun e => e.1 != p), trace := w.trace ++ [Event.free p] }
      else none
    | none => none

/-- The type `std::unique_ptr<WGPUChainedStruct, void (*)(WGPUChainedStruct*)>`: the
owned pointer and the release function stored with it. -/
structure UniquePtr where
  ptr : Ptr
  deleter : Ptr → World → Option World

/-- The member `get()`. -/
def UniquePtr.get (u : UniquePtr) : Ptr := u.ptr

/-- The destructor of the owning pointer: it invokes the release function on the owned
pointer exactly when that pointer is not null. -/
def UniquePtr.destroy (u : UniquePtr) (w : World) : Option World :=
  if u.ptr = nullptr then some w
  else u.deleter u.ptr { w with trace := w.trace ++ [Event.release u.ptr] }

/-- The lambda of lines 65-67. -/
def deleteWindowsHWND (desc : Ptr) (w : World) : Option World :=
  w.delete .WindowsHWND desc

/-- The lambda of lines 76-78. -/
def deleteMetalLayer (desc : Ptr) (w : World) : Option World :=
  w.delete .MetalLayer desc

/-- The lambda of lines 88-90. -/
def deleteXlibWindow (desc : Ptr) (w : World) : Option World :=
  w.delete .XlibWindow desc

/-- The lambda of line 93, with an empty body. -/
def deleteNothing (_desc : Ptr) (w : World) : Option World :=
  some w

/-! ## The two functions -/

/-- The function `GetSurfaceDescriptor` (lines 56-95), one equation per branch of its
`#if` chain. The descriptor starts value-initialised, receives the assignments of the
source in their order, and is the object `new` placed in the heap. The result is `none`
where the source has no defined behaviour (a `native` pointer that cannot be read). -/
def GetSurfaceDescriptor :
    (cfg : Config) → NativeMemory cfg → Ptr → World → Option (UniquePtr × World)
  | ⟨true, _, _⟩, mem, native, w =>
    match mem.deref native with
    | none => none
    | some (n : NativeDataWindows) =>
      let desc : WGPUSurfaceSourceWindowsHWND := {}
      let desc := { desc with chain.next := nullptr }
      let desc := { desc with chain.sType := WGPUSType.SurfaceSourceWindowsHWND }
      let desc := { desc with hwnd := n.hwnd }
      let desc := { desc with hinstance := n.hinstance }
      let (p, w1) := w.new (HeapObject.WindowsHWND desc)
      some ({ ptr := p, deleter := deleteWindowsHWND }, w1)
  | ⟨false, true, _⟩, mem, native, w =>
    match mem.deref native with
    | none => none
    | some (n : NativeDataMetal) =>
      let desc : WGPUSurfaceSourceMetalLayer := {}
      let desc := { desc with chain.next := nullptr }
      let desc := { desc with chain.sType := WGPUSType.SurfaceSourceMetalLayer }
      let desc := { desc with layer := n.layer }
      let (p, w1) := w.new (HeapObject.MetalLayer desc)
      some ({ ptr := p, deleter := deleteMetalLayer }, w1)
  | ⟨false, false, true⟩, mem, native, w =>
    match mem.deref native with
    | none => none
    | some (n : NativeDataX11) =>
      let desc : WGPUSurfaceSourceXlibWindow := {}
      let desc := { desc with chain.next := nullptr }
      let desc := { desc with chain.sType := WGPUSType.SurfaceSourceXlibWindow }
      let desc := { desc with display := n.display }
      let desc := { desc with window := n.window }
      let (p, w1) := w.new (HeapObject.XlibWindow desc)
      some ({ ptr := p, deleter := deleteXlibWindow }, w1)
  | ⟨false, false, false⟩, _, _, w =>
    some ({ ptr := nullptr, deleter := deleteNothing }, w)

/-- Modelled from the spec: the entry-point table `DawnProcTable` (declared in a header
that is not under src/), of which only `instanceCreateSurface` is used. The entry point
is an external collaborator: it receives the instance and the request, may read the
objects the request points at (the heap at the moment of the call), and answers with a
surface handle. The heap of this development holds the objects created with `new` in
utils.cpp; the entry point borrows them for the duration of the call and neither creates
nor destroys any of them. -/
structure DawnProcTable where
  instanceCreateSurface : WGPUInstance → WGPUSurfaceDescriptor → Heap → WGPUSurface

/-- The function `CreateSurfaceForWindow` (lines 97-105); the owning pointer
`chainedDescriptor` is destroyed when the function returns. -/
def CreateSurfaceForWindow (cfg : Config) (mem : NativeMemory cfg) (procs : DawnProcTable)
    (inst : WGPUInstance) (window : Ptr) (w : World) : Option (WGPUSurface × World) :=
  match GetSurfaceDescriptor cfg mem window w with
  | none => none
  | some (chainedDescriptor, w1) =>
    let surfaceDesc : WGPUSurfaceDescriptor := {}
    let surfaceDesc := { surfaceDesc with nextInChain := chainedDescriptor.get }
    let surface := procs.instanceCreateSurface inst surfaceDesc w1.heap
    let w2 : World := { w1 with trace := w1.trace ++ [Event.call inst surfaceDesc] }
    match chainedDescriptor.destroy w2 with
    | none => none
    | some w3 => some (surface, w3)

/-! ## Observations on a run -/

/-- The events a run performed: what the history after the run adds to the history
before it. -/
def runEvents (before after : World) : List Event :=
  after.trace.drop before.trace.length

/-- The addresses handed out by `new`, in order. -/
def allocations (es : List Event) : List Ptr :=
  es.filterMap fun e => match e with
    | Event.alloc p => some p
    | _ => none

/-- The addresses destroyed by `delete`, in order. -/
def deallocations (es : List Event) : List Ptr :=
  es.filterMap fun e => match e with
    | Event.free p => some p
    | _ => none

/-- The calls into the entry-point table, in order, each with its two arguments. -/
def entryPointCalls (es : List Event) : List (WGPUInstance × WGPUSurfaceDescriptor) :=
  es.filterMap fun e => match e with
    | Event.call inst d => some (inst, d)
    | _ => none

/-- The invocations of a release function by the destructor of an owning pointer. -/
def releaseInvocations (es : List Event) : List Ptr :=
  es.filterMap fun e => match e with
    | Event.release p => some p
    | _ => none

/-- A run of `CreateSurfaceForWindow` that performs exactly one allocation, exactly one
deallocation, of that same address, and exactly one call into the entry-point table. -/
def OneAllocationOneDeallocationOneCall (cfg : Config) (mem : NativeMemory cfg)
    (procs : DawnProcTable) (inst : WGPUInstance) (window : Ptr) (w : World) : Prop :=
  ∃ surface w3 p, CreateSurfaceForWindow cfg mem procs inst window w = some (surface, w3) ∧
    allocations (runEvents w w3) = [p] ∧
    deallocations (runEvents w w3) = [p] ∧
    (entryPointCalls (runEvents w w3)).length = 1

/-- The object `GetSurfaceDescriptor` leaves at the address it returns, if any. -/
def producedObject (r : UniquePtr × World) : Option HeapObject :=
  List.lookup r.1.ptr r.2.heap

/-! ## Concrete inputs -/

/-- A world with nothing allocated and no history. -/
def emptyWorld : World := ⟨[], []⟩

/-- A world in which an unrelated object is already allocated at address 3. -/
def busyWorld : World := ⟨[(3, HeapObject.MetalLayer {})], [Event.alloc 3]⟩

/-- A Windows build whose memory holds the native handle
`{hwnd = 0x1000, hinstance = 0x2000}` at address 7. -/
def windowsMemory : NativeMemory ⟨true, false, false⟩ :=
  fun p => if p = 7 then some (⟨0x1000, 0x2000⟩ : NativeDataWindows) else none

/-- A Metal build whose memory holds the native handle `{layer = 0x3000}` at address 7. -/
def metalMemory : NativeMemory ⟨false, true, false⟩ :=
  fun p => if p = 7 then some (⟨0x3000⟩ : NativeDataMetal) else none

/-- An X11 build whose memory holds the native handle `{display = 0xD, window = 42}` at
address 7. -/
def x11Memory : NativeMemory ⟨false, false, true⟩ :=
  fun p => if p = 7 then some (⟨0xD, 42⟩ : NativeDataX11) else none

/-- A build with all three macros active; `NativeData` is then the Windows struct. -/
def allThreeMemory : NativeMemory ⟨true, true, true⟩ :=
  fun p => if p = 7 then some (⟨0x1000, 0x2000⟩ : NativeDataWindows) else none

/-- A build with no macro active: no `NativeData` object can be read. -/
def noMemory : NativeMemory ⟨false, false, false⟩ :=
  fun _ => none

/-- An entry-point table whose `instanceCreateSurface` always fails with the null handle. -/
def failingProcs : DawnProcTable :=
  ⟨fun _ _ _ => 0⟩

/-- An entry-point table whose answer depends on every argument it receives. -/
def probingProcs : DawnProcTable :=
  ⟨fun inst d h => inst + d.nextInChain + h.length⟩

/-! ## Facts about the heap and the two functions -/

theorem Heap.lt_fresh (h : Heap) : ∀ e ∈ h, e.1 < h.fresh := by
  induction h with
  | nil => intro e he; cases he
  | cons a t ih =>
    intro e he
    have hf : Heap.fresh (a :: t) = max a.1 ((t.map Prod.fst).foldr max 0) + 1 := rfl
    rcases List.mem_cons.mp he with rfl | h1
    · rw [hf]; exact Nat.lt_succ_of_le (Nat.le_max_left _ _)
    · have h2 : e.1 < (t.map Prod.fst).foldr max 0 + 1 := ih e h1
      rw [hf]
      exact Nat.lt_succ_of_le (Nat.le_trans (Nat.le_of_lt_succ h2) (Nat.le_max_right _ _))

theorem Heap.fresh_ne_nullptr (h : Heap) : h.fresh ≠ nullptr := by
  exact Nat.succ_ne_zero _

theorem Heap.filter_fresh (h : Heap) : h.filter (fun e => e.1 != h.fresh) = h := by
  apply List.filter_eq_self.mpr
  intro e he
  have h1 : e.1 < h.fresh := Heap.lt_fresh h e he
  have h2 : e.1 ≠ h.fresh := Nat.ne_of_lt h1
  simpa using h2

theorem Heap.lookup_filter (h : Heap) (p q : Ptr) :
    List.lookup q (h.filter (fun e => e.1 != p)) = if q = p then none else List.lookup q h := by
  induction h with
  | nil => simp
  | cons a t ih =>
    obtain ⟨k, v⟩ := a
    by_cases hk : k = p
    · subst hk
      by_cases hq : q = k
      · subst hq; simp [List.filter_cons, ih]
      · have : (q == k) = false := by simpa using hq
        simp [List.filter_cons, ih, List.lookup_cons, this, hq]
    · have hkp : (k != p) = true := by simpa using hk
      by_cases hq : q = k
      · subst hq
        simp [List.filter_cons, hkp, List.lookup_cons, hk]
      · have : (q == k) = false := by simpa using hq
        simp [List.filter_cons, hkp, List.lookup_cons, this, ih]

theorem Heap.lookup_fresh (h : Heap) : List.lookup h.fresh h = none := by
  have := Heap.lookup_filter h h.fresh h.fresh
  rw [Heap.filter_fresh] at this
  simpa using this


theorem GetSurfaceDescriptor_cases (cfg : Config) (mem : NativeMemory cfg) (native : Ptr)
    (w : World) (u : UniquePtr) (w1 : World)
    (h : GetSurfaceDescriptor cfg mem native w = some (u, w1)) :
    (NativeDataShape cfg = none ∧ u = ⟨nullptr, deleteNothing⟩ ∧ w1 = w) ∨
    (∃ T obj, NativeDataShape cfg = some T ∧ (mem.deref native).isSome = true ∧
      obj.allocatedAs = T ∧ obj.chain.next = nullptr ∧ obj.chain.sType.names = some T ∧
      u = ⟨w.heap.fresh, fun p v => v.delete T p⟩ ∧
      w1 = ⟨(w.heap.fresh, obj) :: w.heap, w.trace ++ [Event.alloc w.heap.fresh]⟩) := by
  obtain ⟨a, b, c⟩ := cfg
  cases a
  · cases b
    · cases c
      · left
        simp only [GetSurfaceDescriptor, Option.some.injEq, Prod.mk.injEq] at h
        exact ⟨rfl, h.1.symm, h.2.symm⟩
      · right
        simp only [GetSurfaceDescriptor] at h
        split at h
        · cases h
        · rename_i n hn
          simp only [World.new, Option.some.injEq, Prod.mk.injEq] at h
          refine ⟨_, _, rfl, by rw [hn]; rfl, ?_, ?_, ?_, h.1.symm, h.2.symm⟩ <;> rfl
    · right
      simp only [GetSurfaceDescriptor] at h
      split at h
      · cases h
      · rename_i n hn
        simp only [World.new, Option.some.injEq, Prod.mk.injEq] at h
        refine ⟨_, _, rfl, by rw [hn]; rfl, ?_, ?_, ?_, h.1.symm, h.2.symm⟩ <;> rfl
  · right
    simp only [GetSurfaceDescriptor] at h
    split at h
    · cases h
    · rename_i n hn
      simp only [World.new, Option.some.injEq, Prod.mk.injEq] at h
      refine ⟨_, _, rfl, by rw [hn]; rfl, ?_, ?_, ?_, h.1.symm, h.2.symm⟩ <;> rfl

theorem GetSurfaceDescriptor_defined (cfg : Config) (mem : NativeMemory cfg) (native : Ptr)
    (w : World) (h : NativeDataShape cfg = none ∨ (mem.deref native).isSome = true) :
    ∃ u w1, GetSurfaceDescriptor cfg mem native w = some (u, w1) := by
  obtain ⟨a, b, c⟩ := cfg
  cases a
  · cases b
    · cases c
      · exact ⟨_, _, rfl⟩
      · rcases h with h | h
        · cases h
        · obtain ⟨n, hn⟩ := Option.isSome_iff_exists.mp h
          simp only [GetSurfaceDescriptor, hn, World.new]
          exact ⟨_, _, rfl⟩
    · rcases h with h | h
      · cases h
      · obtain ⟨n, hn⟩ := Option.isSome_iff_exists.mp h
        simp only [GetSurfaceDescriptor, hn, World.new]
        exact ⟨_, _, rfl⟩
  · rcases h with h | h
    · cases h
    · obtain ⟨n, hn⟩ := Option.isSome_iff_exists.mp h
      simp only [GetSurfaceDescriptor, hn, World.new]
      exact ⟨_, _, rfl⟩

theorem GetSurfaceDescriptor_undefined (cfg : Config) (mem : NativeMemory cfg) (native : Ptr)
    (w : World) (hs : NativeDataShape cfg ≠ none) (hn : mem.deref native = none) :
    GetSurfaceDescriptor cfg mem native w = none := by
  cases h : GetSurfaceDescriptor cfg mem native w with
  | none => rfl
  | some r =>
    obtain ⟨u, w1⟩ := r
    rcases GetSurfaceDescriptor_cases cfg mem native w u w1 h with ⟨h0, _⟩ | ⟨_, _, _, hd, _⟩
    · exact absurd h0 hs
    · rw [hn] at hd
      cases hd


theorem runEvents_append (w : World) (h : Heap) (es : List Event) :
    runEvents w ⟨h, w.trace ++ es⟩ = es := by
  simp [runEvents]

theorem World.delete_fresh (h : Heap) (obj : HeapObject) (tr : List Event) :
    World.delete ⟨(h.fresh, obj) :: h, tr⟩ obj.allocatedAs h.fresh =
      some ⟨h, tr ++ [Event.free h.fresh]⟩ := by
  have hne : h.fresh ≠ nullptr := Heap.fresh_ne_nullptr h
  have hf : List.filter (fun e => e.1 != h.fresh) h = h := Heap.filter_fresh h
  simp [World.delete, hne, List.lookup_cons, List.filter_cons, hf]

theorem CreateSurfaceForWindow_null (cfg : Config) (mem : NativeMemory cfg)
    (procs : DawnProcTable) (inst : WGPUInstance) (window : Ptr) (w : World)
    (h : NativeDataShape cfg = none) :
    CreateSurfaceForWindow cfg mem procs inst window w =
      some (procs.instanceCreateSurface inst { nextInChain := nullptr } w.heap,
        ⟨w.heap, w.trace ++ [Event.call inst { nextInChain := nullptr }]⟩) := by
  obtain ⟨a, b, c⟩ := cfg
  cases a <;> cases b <;> cases c <;> first | rfl | cases h

theorem CreateSurfaceForWindow_fresh (cfg : Config) (mem : NativeMemory cfg)
    (procs : DawnProcTable) (inst : WGPUInstance) (window : Ptr) (w : World)
    (T : SurfaceSource) (obj : HeapObject) (hT : obj.allocatedAs = T)
    (h : GetSurfaceDescriptor cfg mem window w =
      some (⟨w.heap.fresh, fun p v => v.delete T p⟩,
        ⟨(w.heap.fresh, obj) :: w.heap, w.trace ++ [Event.alloc w.heap.fresh]⟩)) :
    CreateSurfaceForWindow cfg mem procs inst window w =
      some (procs.instanceCreateSurface inst { nextInChain := w.heap.fresh }
          ((w.heap.fresh, obj) :: w.heap),
        ⟨w.heap, w.trace ++ [Event.alloc w.heap.fresh,
          Event.call inst { nextInChain := w.heap.fresh },
          Event.release w.heap.fresh, Event.free w.heap.fresh]⟩) := by
  subst hT
  have hne : w.heap.fresh ≠ nullptr := Heap.fresh_ne_nullptr w.heap
  simp only [CreateSurfaceForWindow, h, UniquePtr.destroy, UniquePtr.get, hne, if_false,
    World.delete_fresh]
  simp

theorem World.delete_live (v : World) (obj : HeapObject) (p : Ptr) (hp : p ≠ nullptr)
    (hl : List.lookup p v.heap = some obj) :
    v.delete obj.allocatedAs p =
      some ⟨v.heap.filter (fun e => e.1 != p), v.trace ++ [Event.free p]⟩ := by
  simp [World.delete, hp, hl]

theorem NativeDataShape_eq_none (cfg : Config) (hW : cfg.DAWN_PLATFORM_IS_WINDOWS = false)
    (hM : cfg.DAWN_ENABLE_BACKEND_METAL = false) (hX : cfg.DAWN_USE_X11 = false) :
    NativeDataShape cfg = none := by
  simp [NativeDataShape, hW, hM, hX]


/-! ## The claims -/

/-- C1: on each of the three supported builds, `GetSurfaceDescriptor` applied to a pointer
to any native handle returns a non-null descriptor whose `sType` is the surface-source kind
of that build and whose payload fields equal the fields of the handle: `hwnd` and
`hinstance` on a Windows build, `layer` on a Metal build, `display` and `window` on an X11
build. -/
theorem C1_GetSurfaceDescriptor_tags_and_copies :
    (∀ (m x : Bool) (mem : NativeMemory ⟨true, m, x⟩) (native : Ptr) (n : NativeDataWindows)
        (w : World), mem.deref native = some n →
      ∃ u w1 d, GetSurfaceDescriptor ⟨true, m, x⟩ mem native w = some (u, w1) ∧
        u.ptr ≠ nullptr ∧
        producedObject (u, w1) = some (HeapObject.WindowsHWND d) ∧
        d.chain.sType = WGPUSType.SurfaceSourceWindowsHWND ∧
        d.hwnd = n.hwnd ∧ d.hinstance = n.hinstance) ∧
    (∀ (x : Bool) (mem : NativeMemory ⟨false, true, x⟩) (native : Ptr) (n : NativeDataMetal)
        (w : World), mem.deref native = some n →
      ∃ u w1 d, GetSurfaceDescriptor ⟨false, true, x⟩ mem native w = some (u, w1) ∧
        u.ptr ≠ nullptr ∧
        producedObject (u, w1) = some (HeapObject.MetalLayer d) ∧
        d.chain.sType = WGPUSType.SurfaceSourceMetalLayer ∧
        d.layer = n.layer) ∧
    (∀ (mem : NativeMemory ⟨false, false, true⟩) (native : Ptr) (n : NativeDataX11)
        (w : World), mem.deref native = some n →
      ∃ u w1 d, GetSurfaceDescriptor ⟨false, false, true⟩ mem native w = some (u, w1) ∧
        u.ptr ≠ nullptr ∧
        producedObject (u, w1) = some (HeapObject.XlibWindow d) ∧
        d.chain.sType = WGPUSType.SurfaceSourceXlibWindow ∧
        d.display = n.display ∧ d.window = n.window) := by
  refine ⟨?_, ?_, ?_⟩
  · intro m x mem native n w hn
    simp only [GetSurfaceDescriptor, hn, World.new]
    refine ⟨_, _, ⟨⟨nullptr, WGPUSType.SurfaceSourceWindowsHWND⟩, n.hinstance, n.hwnd⟩, rfl,
      Heap.fresh_ne_nullptr w.heap, ?_, rfl, rfl, rfl⟩
    simp [producedObject, List.lookup_cons]
  · intro x mem native n w hn
    simp only [GetSurfaceDescriptor, hn, World.new]
    refine ⟨_, _, ⟨⟨nullptr, WGPUSType.SurfaceSourceMetalLayer⟩, n.layer⟩, rfl,
      Heap.fresh_ne_nullptr w.heap, ?_, rfl, rfl⟩
    simp [producedObject, List.lookup_cons]
  · intro mem native n w hn
    simp only [GetSurfaceDescriptor, hn, World.new]
    refine ⟨_, _, ⟨⟨nullptr, WGPUSType.SurfaceSourceXlibWindow⟩, n.display, n.window⟩, rfl,
      Heap.fresh_ne_nullptr w.heap, ?_, rfl, rfl, rfl⟩
    simp [producedObject, List.lookup_cons]

/-- Witness of C1: the two end-to-end scenarios, the Windows handle `0x1000 / 0x2000` and
the X11 handle `D / 42`. -/
theorem C1_witness :
    (∃ u w1 d, GetSurfaceDescriptor ⟨true, false, false⟩ windowsMemory 7 emptyWorld
        = some (u, w1) ∧ u.ptr ≠ nullptr ∧
        producedObject (u, w1) = some (HeapObject.WindowsHWND d) ∧
        d.chain.sType = WGPUSType.SurfaceSourceWindowsHWND ∧
        d.hwnd = 0x1000 ∧ d.hinstance = 0x2000) ∧
    (∃ u w1 d, GetSurfaceDescriptor ⟨false, false, true⟩ x11Memory 7 emptyWorld
        = some (u, w1) ∧ u.ptr ≠ nullptr ∧
        producedObject (u, w1) = some (HeapObject.XlibWindow d) ∧
        d.chain.sType = WGPUSType.SurfaceSourceXlibWindow ∧
        d.display = 0xD ∧ d.window = 42) :=
  ⟨C1_GetSurfaceDescriptor_tags_and_copies.1 false false windowsMemory 7 ⟨0x1000, 0x2000⟩
      emptyWorld rfl,
    C1_GetSurfaceDescriptor_tags_and_copies.2.2 x11Memory 7 ⟨0xD, 42⟩ emptyWorld rfl⟩

/-- C2: on every supported build and for every native handle the pointer addresses, the
descriptor `GetSurfaceDescriptor` returns has `chain.next` equal to the null pointer. -/
theorem C2_chain_next_is_null (cfg : Config) (mem : NativeMemory cfg) (native : Ptr)
    (w : World) (hs : NativeDataShape cfg ≠ none) (hn : (mem.deref native).isSome = true) :
    ∃ u w1 obj, GetSurfaceDescriptor cfg mem native w = some (u, w1) ∧
      producedObject (u, w1) = some obj ∧ obj.chain.next = nullptr := by
  obtain ⟨u, w1, h⟩ := GetSurfaceDescriptor_defined cfg mem native w (Or.inr hn)
  rcases GetSurfaceDescriptor_cases cfg mem native w u w1 h with
    ⟨h0, _⟩ | ⟨T, obj, _, _, _, hnext, _, hu, hw⟩
  · exact absurd h0 hs
  · subst hu hw
    refine ⟨_, _, obj, h, ?_, hnext⟩
    simp [producedObject, List.lookup_cons]

/-- Witness of C2 on a Metal build. -/
theorem C2_witness :
    ∃ u w1 obj, GetSurfaceDescriptor ⟨false, true, false⟩ metalMemory 7 busyWorld
        = some (u, w1) ∧
      producedObject (u, w1) = some obj ∧ obj.chain.next = nullptr :=
  C2_chain_next_is_null ⟨false, true, false⟩ metalMemory 7 busyWorld (by decide) rfl

/-- C3: on a build where none of the three platform macros is active,
`GetSurfaceDescriptor` returns, for every input and without touching the world, the null
pointer paired with a release function that leaves every world unchanged on every
pointer. -/
theorem C3_unsupported_build_null_descriptor (cfg : Config) (mem : NativeMemory cfg)
    (native : Ptr) (w : World)
    (hW : cfg.DAWN_PLATFORM_IS_WINDOWS = false) (hM : cfg.DAWN_ENABLE_BACKEND_METAL = false)
    (hX : cfg.DAWN_USE_X11 = false) :
    ∃ u, GetSurfaceDescriptor cfg mem native w = some (u, w) ∧ u.ptr = nullptr ∧
      ∀ (p : Ptr) (v : World), u.deleter p v = some v := by
  obtain ⟨a, b, c⟩ := cfg
  simp only at hW hM hX
  subst hW hM hX
  exact ⟨⟨nullptr, deleteNothing⟩, rfl, rfl, fun _ _ => rfl⟩

/-- Witness of C3: the build with no macro active, a dangling input pointer. -/
theorem C3_witness :
    ∃ u, GetSurfaceDescriptor ⟨false, false, false⟩ noMemory 7 busyWorld = some (u, busyWorld) ∧
      u.ptr = nullptr ∧ ∀ (p : Ptr) (v : World), u.deleter p v = some v :=
  C3_unsupported_build_null_descriptor ⟨false, false, false⟩ noMemory 7 busyWorld rfl rfl rfl

/-- C4: for every entry-point table, instance and window pointer that
`GetSurfaceDescriptor` can read (any pointer on a build with no platform macro active, a
pointer that addresses a native handle on a supported build), one invocation of
`CreateSurfaceForWindow` returns and calls `instanceCreateSurface` of the table exactly
once, with the given instance and a request whose `nextInChain` is the descriptor that
`GetSurfaceDescriptor` produces from the window pointer. -/
theorem C4_CreateSurfaceForWindow_calls_entry_point_once (cfg : Config)
    (mem : NativeMemory cfg) (procs : DawnProcTable) (inst : WGPUInstance) (window : Ptr)
    (w : World)
    (hwin : NativeDataShape cfg = none ∨ (mem.deref window).isSome = true) :
    ∃ u w1 surface w3 request,
      GetSurfaceDescriptor cfg mem window w = some (u, w1) ∧
      CreateSurfaceForWindow cfg mem procs inst window w = some (surface, w3) ∧
      w3.trace = w.trace ++ runEvents w w3 ∧
      entryPointCalls (runEvents w w3) = [(inst, request)] ∧
      request.nextInChain = u.ptr := by
  obtain ⟨u, w1, h⟩ := GetSurfaceDescriptor_defined cfg mem window w hwin
  rcases GetSurfaceDescriptor_cases cfg mem window w u w1 h with
    ⟨h0, hu, _⟩ | ⟨T, obj, _, _, hT, _, _, hu, hw⟩
  · subst hu
    refine ⟨_, _, _, _, { nextInChain := nullptr }, h,
      CreateSurfaceForWindow_null cfg mem procs inst window w h0, ?_, ?_, rfl⟩
    · rw [runEvents_append]
    · rw [runEvents_append]; rfl
  · subst hu hw
    refine ⟨_, _, _, _, { nextInChain := w.heap.fresh }, h,
      CreateSurfaceForWindow_fresh cfg mem procs inst window w T obj hT h, ?_, ?_, rfl⟩
    · rw [runEvents_append]
    · rw [runEvents_append]; rfl

/-- Witness of C4 on a Windows build, in a world that already holds another allocation. -/
theorem C4_witness :
    ∃ u w1 surface w3 request,
      GetSurfaceDescriptor ⟨true, false, false⟩ windowsMemory 7 busyWorld = some (u, w1) ∧
      CreateSurfaceForWindow ⟨true, false, false⟩ windowsMemory probingProcs 100 7 busyWorld
        = some (surface, w3) ∧
      w3.trace = busyWorld.trace ++ runEvents busyWorld w3 ∧
      entryPointCalls (runEvents busyWorld w3) = [(100, request)] ∧
      request.nextInChain = u.ptr :=
  C4_CreateSurfaceForWindow_calls_entry_point_once ⟨true, false, false⟩ windowsMemory
    probingProcs 100 7 busyWorld (Or.inr rfl)

/-- C5: for every entry-point table, instance and window pointer that
`GetSurfaceDescriptor` can read, `CreateSurfaceForWindow` returns exactly the value
`instanceCreateSurface` returned for the given instance and the request pointing at the
produced descriptor, whatever that value is. -/
theorem C5_CreateSurfaceForWindow_returns_entry_point_result (cfg : Config)
    (mem : NativeMemory cfg) (procs : DawnProcTable) (inst : WGPUInstance) (window : Ptr)
    (w : World)
    (hwin : NativeDataShape cfg = none ∨ (mem.deref window).isSome = true) :
    ∃ u w1 w3, GetSurfaceDescriptor cfg mem window w = some (u, w1) ∧
      entryPointCalls (runEvents w w3) = [(inst, { nextInChain := u.ptr })] ∧
      CreateSurfaceForWindow cfg mem procs inst window w =
        some (procs.instanceCreateSurface inst { nextInChain := u.ptr } w1.heap, w3) := by
  obtain ⟨u, w1, h⟩ := GetSurfaceDescriptor_defined cfg mem window w hwin
  rcases GetSurfaceDescriptor_cases cfg mem window w u w1 h with
    ⟨h0, hu, hw⟩ | ⟨T, obj, _, _, hT, _, _, hu, hw⟩
  · subst hu hw
    refine ⟨_, _, _, h, ?_, CreateSurfaceForWindow_null cfg mem procs inst window w1 h0⟩
    rw [runEvents_append]; rfl
  · subst hu hw
    refine ⟨_, _, _, h, ?_,
      CreateSurfaceForWindow_fresh cfg mem procs inst window w T obj hT h⟩
    rw [runEvents_append]; rfl

/-- Witness of C5: an entry point that fails with the null handle, on an X11 build and on
the build with no macro active. -/
theorem C5_witness :
    (∃ u w1 w3, GetSurfaceDescriptor ⟨false, false, true⟩ x11Memory 7 emptyWorld
        = some (u, w1) ∧
      entryPointCalls (runEvents emptyWorld w3) = [(100, { nextInChain := u.ptr })] ∧
      CreateSurfaceForWindow ⟨false, false, true⟩ x11Memory failingProcs 100 7 emptyWorld =
        some (failingProcs.instanceCreateSurface 100 { nextInChain := u.ptr } w1.heap, w3)) ∧
    (∃ u w1 w3, GetSurfaceDescriptor ⟨false, false, false⟩ noMemory 0 emptyWorld
        = some (u, w1) ∧
      entryPointCalls (runEvents emptyWorld w3) = [(100, { nextInChain := u.ptr })] ∧
      CreateSurfaceForWindow ⟨false, false, false⟩ noMemory failingProcs 100 0 emptyWorld =
        some (failingProcs.instanceCreateSurface 100 { nextInChain := u.ptr } w1.heap, w3)) :=
  ⟨C5_CreateSurfaceForWindow_returns_entry_point_result ⟨false, false, true⟩ x11Memory
      failingProcs 100 7 emptyWorld (Or.inr rfl),
    C5_CreateSurfaceForWindow_returns_entry_point_result ⟨false, false, false⟩ noMemory
      failingProcs 100 0 emptyWorld (Or.inl rfl)⟩

/-- C6, as stated, fails: on the build with no platform macro active a call of
`CreateSurfaceForWindow` allocates nothing and deallocates nothing. -/
theorem C6_counterexample :
    ¬ OneAllocationOneDeallocationOneCall ⟨false, false, false⟩ noMemory failingProcs 100 7
      emptyWorld := by
  rintro ⟨surface, w3, p, hrun, halloc, _⟩
  have hnull := CreateSurfaceForWindow_null ⟨false, false, false⟩ noMemory failingProcs 100 7
    emptyWorld rfl
  rw [hnull] at hrun
  simp only [Option.some.injEq, Prod.mk.injEq] at hrun
  rw [← hrun.2, runEvents_append] at halloc
  simp [allocations] at halloc

/-- C6, amended: on a supported build every call of `CreateSurfaceForWindow` on a window
pointer that addresses a native handle performs exactly one allocation, exactly one
deallocation, of that allocation, and exactly one call into the entry-point table; on a
build with no platform macro active every call performs no allocation, no deallocation
and exactly one call into the entry-point table. -/
theorem C6_allocation_per_call_by_build (cfg : Config) (mem : NativeMemory cfg)
    (procs : DawnProcTable) (inst : WGPUInstance) (window : Ptr) (w : World) :
    (NativeDataShape cfg ≠ none → (mem.deref window).isSome = true →
      OneAllocationOneDeallocationOneCall cfg mem procs inst window w) ∧
    (NativeDataShape cfg = none →
      ∃ surface w3, CreateSurfaceForWindow cfg mem procs inst window w = some (surface, w3) ∧
        allocations (runEvents w w3) = [] ∧
        deallocations (runEvents w w3) = [] ∧
        (entryPointCalls (runEvents w w3)).length = 1) := by
  constructor
  · intro hs hn
    obtain ⟨u, w1, h⟩ := GetSurfaceDescriptor_defined cfg mem window w (Or.inr hn)
    rcases GetSurfaceDescriptor_cases cfg mem window w u w1 h with
      ⟨h0, _⟩ | ⟨T, obj, _, _, hT, _, _, hu, hw⟩
    · exact absurd h0 hs
    · subst hu hw
      refine ⟨_, _, w.heap.fresh,
        CreateSurfaceForWindow_fresh cfg mem procs inst window w T obj hT h, ?_, ?_, ?_⟩
      · rw [runEvents_append]; rfl
      · rw [runEvents_append]; rfl
      · rw [runEvents_append]; rfl
  · intro h0
    refine ⟨_, _, CreateSurfaceForWindow_null cfg mem procs inst window w h0, ?_, ?_, ?_⟩
    · rw [runEvents_append]; rfl
    · rw [runEvents_append]; rfl
    · rw [runEvents_append]; rfl

/-- Witness of C6 amended: a Metal build for the first half, the build with no macro
active for the second. -/
theorem C6_witness :
    OneAllocationOneDeallocationOneCall ⟨false, true, false⟩ metalMemory probingProcs 100 7
      busyWorld ∧
    ∃ surface w3, CreateSurfaceForWindow ⟨false, false, false⟩ noMemory probingProcs 100 7
        busyWorld = some (surface, w3) ∧
      allocations (runEvents busyWorld w3) = [] ∧
      deallocations (runEvents busyWorld w3) = [] ∧
      (entryPointCalls (runEvents busyWorld w3)).length = 1 :=
  ⟨(C6_allocation_per_call_by_build ⟨false, true, false⟩ metalMemory probingProcs 100 7
      busyWorld).1 (by decide) rfl,
    (C6_allocation_per_call_by_build ⟨false, false, false⟩ noMemory probingProcs 100 7
      busyWorld).2 rfl⟩

/-- C7: on every supported build, the release function paired with the descriptor that
`GetSurfaceDescriptor` returned deletes it as the concrete type it was allocated as;
invoked once on that descriptor it removes exactly that allocation, every other address
keeps what it held, the heap is again the heap from before the allocation, and nothing
else is recorded than that one deallocation. The same holds in any later world in which
the descriptor is still allocated. -/
theorem C7_release_frees_exactly_the_allocation (cfg : Config) (mem : NativeMemory cfg)
    (native : Ptr) (w : World)
    (hs : NativeDataShape cfg ≠ none) (hn : (mem.deref native).isSome = true) :
    ∃ u w1 obj w2, GetSurfaceDescriptor cfg mem native w = some (u, w1) ∧
      producedObject (u, w1) = some obj ∧
      u.deleter = (fun p v => v.delete obj.allocatedAs p) ∧
      u.deleter u.ptr w1 = some w2 ∧
      List.lookup u.ptr w2.heap = none ∧
      (∀ q, q ≠ u.ptr → List.lookup q w2.heap = List.lookup q w1.heap) ∧
      w2.heap = w.heap ∧
      w2.trace = w1.trace ++ [Event.free u.ptr] ∧
      (∀ v : World, List.lookup u.ptr v.heap = some obj →
        ∃ v2, u.deleter u.ptr v = some v2 ∧
          List.lookup u.ptr v2.heap = none ∧
          (∀ q, q ≠ u.ptr → List.lookup q v2.heap = List.lookup q v.heap) ∧
          v2.trace = v.trace ++ [Event.free u.ptr]) := by
  obtain ⟨u, w1, h⟩ := GetSurfaceDescriptor_defined cfg mem native w (Or.inr hn)
  rcases GetSurfaceDescriptor_cases cfg mem native w u w1 h with
    ⟨h0, _⟩ | ⟨T, obj, _, _, hT, _, _, hu, hw⟩
  · exact absurd h0 hs
  · subst hu hw hT
    have hne : w.heap.fresh ≠ nullptr := Heap.fresh_ne_nullptr w.heap
    refine ⟨_, _, obj, ⟨w.heap, (w.trace ++ [Event.alloc w.heap.fresh]) ++
      [Event.free w.heap.fresh]⟩, h, ?_, rfl, ?_, ?_, ?_, rfl, rfl, ?_⟩
    · simp [producedObject, List.lookup_cons]
    · exact World.delete_fresh w.heap obj _
    · exact Heap.lookup_fresh w.heap
    · intro q hq
      have hq2 : (q == w.heap.fresh) = false := by simpa using hq
      simp [List.lookup_cons, hq2]
    · intro v hv
      refine ⟨_, World.delete_live v obj w.heap.fresh hne hv, ?_, ?_, rfl⟩
      · simp [Heap.lookup_filter]
      · intro q hq
        simp [Heap.lookup_filter, hq]

/-- Witness of C7 on an X11 build, in a world that already holds another allocation. -/
theorem C7_witness :
    ∃ u w1 obj w2, GetSurfaceDescriptor ⟨false, false, true⟩ x11Memory 7 busyWorld
        = some (u, w1) ∧
      producedObject (u, w1) = some obj ∧
      u.deleter = (fun p v => v.delete obj.allocatedAs p) ∧
      u.deleter u.ptr w1 = some w2 ∧
      List.lookup u.ptr w2.heap = none ∧
      (∀ q, q ≠ u.ptr → List.lookup q w2.heap = List.lookup q w1.heap) ∧
      w2.heap = busyWorld.heap ∧
      w2.trace = w1.trace ++ [Event.free u.ptr] ∧
      (∀ v : World, List.lookup u.ptr v.heap = some obj →
        ∃ v2, u.deleter u.ptr v = some v2 ∧
          List.lookup u.ptr v2.heap = none ∧
          (∀ q, q ≠ u.ptr → List.lookup q v2.heap = List.lookup q v.heap) ∧
          v2.trace = v.trace ++ [Event.free u.ptr]) :=
  C7_release_frees_exactly_the_allocation ⟨false, false, true⟩ x11Memory 7 busyWorld
    (by decide) rfl

/-- C8: for every combination of the three platform macros, whenever
`GetSurfaceDescriptor` returns a non-null descriptor, the kind its `sType` names is the
concrete type the descriptor was allocated as, hence the payload fields it has, and is
the shape of the `NativeData` struct compiled in for that configuration; in both places
Windows takes priority over Metal and Metal over X11. -/
theorem C8_discriminant_matches_payload_and_native_shape (cfg : Config)
    (mem : NativeMemory cfg) (native : Ptr) (w : World) (u : UniquePtr) (w1 : World)
    (h : GetSurfaceDescriptor cfg mem native w = some (u, w1)) (hp : u.ptr ≠ nullptr) :
    ∃ obj, producedObject (u, w1) = some obj ∧
      obj.chain.sType.names = some obj.allocatedAs ∧
      NativeDataShape cfg = some obj.allocatedAs ∧
      (cfg.DAWN_PLATFORM_IS_WINDOWS = true → obj.allocatedAs = SurfaceSource.WindowsHWND) ∧
      (cfg.DAWN_PLATFORM_IS_WINDOWS = false → cfg.DAWN_ENABLE_BACKEND_METAL = true →
        obj.allocatedAs = SurfaceSource.MetalLayer) ∧
      (cfg.DAWN_PLATFORM_IS_WINDOWS = false → cfg.DAWN_ENABLE_BACKEND_METAL = false →
        cfg.DAWN_USE_X11 = true → obj.allocatedAs = SurfaceSource.XlibWindow) := by
  rcases GetSurfaceDescriptor_cases cfg mem native w u w1 h with
    ⟨_, hu, _⟩ | ⟨T, obj, hshape, _, hT, _, hnames, hu, hw⟩
  · subst hu
    exact absurd rfl hp
  · subst hu hw hT
    refine ⟨obj, ?_, hnames, hshape, ?_, ?_, ?_⟩
    · simp [producedObject, List.lookup_cons]
    · intro hW
      have : NativeDataShape cfg = some SurfaceSource.WindowsHWND := by
        simp [NativeDataShape, hW]
      rw [this] at hshape
      exact (Option.some.inj hshape).symm
    · intro hW hM
      have : NativeDataShape cfg = some SurfaceSource.MetalLayer := by
        simp [NativeDataShape, hW, hM]
      rw [this] at hshape
      exact (Option.some.inj hshape).symm
    · intro hW hM hX
      have : NativeDataShape cfg = some SurfaceSource.XlibWindow := by
        simp [NativeDataShape, hW, hM, hX]
      rw [this] at hshape
      exact (Option.some.inj hshape).symm

/-- Witness of C8: all three macros active at once; the Windows shape wins. -/
theorem C8_witness :
    ∃ obj, producedObject
        ((⟨1, deleteWindowsHWND⟩ : UniquePtr),
          (⟨[(1, HeapObject.WindowsHWND
            ⟨⟨nullptr, WGPUSType.SurfaceSourceWindowsHWND⟩, 0x2000, 0x1000⟩)],
            [Event.alloc 1]⟩ : World)) = some obj ∧
      obj.chain.sType.names = some obj.allocatedAs ∧
      NativeDataShape ⟨true, true, true⟩ = some obj.allocatedAs ∧
      (true = true → obj.allocatedAs = SurfaceSource.WindowsHWND) ∧
      (true = false → true = true → obj.allocatedAs = SurfaceSource.MetalLayer) ∧
      (true = false → true = false → true = true →
        obj.allocatedAs = SurfaceSource.XlibWindow) :=
  C8_discriminant_matches_payload_and_native_shape ⟨true, true, true⟩ allThreeMemory 7
    emptyWorld ⟨1, deleteWindowsHWND⟩ _ rfl (by decide)

/-- C9: on a supported build, with a window pointer that addresses a native handle, the
descriptor is allocated in the heap `instanceCreateSurface` is invoked on, the run is the
allocation, then the call, then the release and the deallocation, and when
`CreateSurfaceForWindow` returns the descriptor is no longer allocated and the heap is the
heap from before the call; only the surface handle is returned. -/
theorem C9_descriptor_lives_exactly_during_the_call (cfg : Config) (mem : NativeMemory cfg)
    (procs : DawnProcTable) (inst : WGPUInstance) (window : Ptr) (w : World)
    (hs : NativeDataShape cfg ≠ none) (hn : (mem.deref window).isSome = true) :
    ∃ u w1 obj surface w3,
      GetSurfaceDescriptor cfg mem window w = some (u, w1) ∧
      producedObject (u, w1) = some obj ∧
      CreateSurfaceForWindow cfg mem procs inst window w = some (surface, w3) ∧
      surface = procs.instanceCreateSurface inst { nextInChain := u.ptr } w1.heap ∧
      runEvents w w3 = [Event.alloc u.ptr, Event.call inst { nextInChain := u.ptr },
        Event.release u.ptr, Event.free u.ptr] ∧
      List.lookup u.ptr w3.heap = none ∧
      w3.heap = w.heap := by
  obtain ⟨u, w1, h⟩ := GetSurfaceDescriptor_defined cfg mem window w (Or.inr hn)
  rcases GetSurfaceDescriptor_cases cfg mem window w u w1 h with
    ⟨h0, _⟩ | ⟨T, obj, _, _, hT, _, _, hu, hw⟩
  · exact absurd h0 hs
  · subst hu hw
    refine ⟨_, _, obj, _, _, h, ?_,
      CreateSurfaceForWindow_fresh cfg mem procs inst window w T obj hT h, rfl, ?_, ?_, rfl⟩
    · simp [producedObject, List.lookup_cons]
    · rw [runEvents_append]
    · exact Heap.lookup_fresh w.heap

/-- Witness of C9 on a Windows build, in a world that already holds another allocation. -/
theorem C9_witness :
    ∃ u w1 obj surface w3,
      GetSurfaceDescriptor ⟨true, false, false⟩ windowsMemory 7 busyWorld = some (u, w1) ∧
      producedObject (u, w1) = some obj ∧
      CreateSurfaceForWindow ⟨true, false, false⟩ windowsMemory probingProcs 100 7 busyWorld
        = some (surface, w3) ∧
      surface = probingProcs.instanceCreateSurface 100 { nextInChain := u.ptr } w1.heap ∧
      runEvents busyWorld w3 = [Event.alloc u.ptr, Event.call 100 { nextInChain := u.ptr },
        Event.release u.ptr, Event.free u.ptr] ∧
      List.lookup u.ptr w3.heap = none ∧
      w3.heap = busyWorld.heap :=
  C9_descriptor_lives_exactly_during_the_call ⟨true, false, false⟩ windowsMemory
    probingProcs 100 7 busyWorld (by decide) rfl

/-- C10: on a build with no platform macro active, `CreateSurfaceForWindow` returns for
every input, the owning pointer is null, the run consists of exactly one call of
`instanceCreateSurface`, with the given instance and a request whose `nextInChain` is null
and whose label is zero, the result of that call is returned, and no release function is
invoked. -/
theorem C10_unsupported_build_still_calls_entry_point (cfg : Config)
    (mem : NativeMemory cfg) (procs : DawnProcTable) (inst : WGPUInstance) (window : Ptr)
    (w : World)
    (hW : cfg.DAWN_PLATFORM_IS_WINDOWS = false) (hM : cfg.DAWN_ENABLE_BACKEND_METAL = false)
    (hX : cfg.DAWN_USE_X11 = false) :
    ∃ u surface w3,
      GetSurfaceDescriptor cfg mem window w = some (u, w) ∧ u.ptr = nullptr ∧
      CreateSurfaceForWindow cfg mem procs inst window w = some (surface, w3) ∧
      surface = procs.instanceCreateSurface inst ⟨nullptr, ⟨nullptr, 0⟩⟩ w.heap ∧
      runEvents w w3 = [Event.call inst ⟨nullptr, ⟨nullptr, 0⟩⟩] ∧
      releaseInvocations (runEvents w w3) = [] ∧
      w3.heap = w.heap := by
  have h0 : NativeDataShape cfg = none := NativeDataShape_eq_none cfg hW hM hX
  obtain ⟨u, w1, h⟩ := GetSurfaceDescriptor_defined cfg mem window w (Or.inl h0)
  rcases GetSurfaceDescriptor_cases cfg mem window w u w1 h with
    ⟨_, hu, hw⟩ | ⟨T, obj, hshape, _⟩
  · subst hu hw
    refine ⟨_, _, _, h, rfl, CreateSurfaceForWindow_null cfg mem procs inst window w1 h0,
      rfl, ?_, ?_, rfl⟩
    · rw [runEvents_append]
    · rw [runEvents_append]; rfl
  · rw [h0] at hshape
    cases hshape

/-- Witness of C10: the build with no macro active, a null window pointer. -/
theorem C10_witness :
    ∃ u surface w3,
      GetSurfaceDescriptor ⟨false, false, false⟩ noMemory 0 busyWorld = some (u, busyWorld) ∧
      u.ptr = nullptr ∧
      CreateSurfaceForWindow ⟨false, false, false⟩ noMemory probingProcs 100 0 busyWorld
        = some (surface, w3) ∧
      surface = probingProcs.instanceCreateSurface 100 ⟨nullptr, ⟨nullptr, 0⟩⟩ busyWorld.heap ∧
      runEvents busyWorld w3 = [Event.call 100 ⟨nullptr, ⟨nullptr, 0⟩⟩] ∧
      releaseInvocations (runEvents busyWorld w3) = [] ∧
      w3.heap = busyWorld.heap :=
  C10_unsupported_build_still_calls_entry_point ⟨false, false, false⟩ noMemory probingProcs
    100 0 busyWorld rfl rfl rfl

end wgpu.sdl
